import Mathlib

/-!
# Verification of the pdform PDF form-filling library

Shallow embedding of the relevant parts of `src/pdform` in Lean 4.

Modelling conventions:
* Python floats are modelled as rationals (`ℚ`); none of the verified
  properties depend on floating-point rounding.
* PDF name objects and strings are modelled as `String` (names carry their
  leading slash, e.g. `"/Off"`).
* Python exceptions are modelled with `Except PyErr`; each constructor of
  `PyErr` corresponds to one Python exception class.
* Mutation of PDF dictionaries is modelled by returning updated values.
-/

namespace Pdform

/- Batteries marks rational arithmetic `@[irreducible]`; re-enable
unfolding so that closed statements about the embedded code evaluate with
`decide`. -/
attribute [local semireducible] Rat.add Rat.mul Rat.sub Rat.inv Rat.ofScientific

/-- Python exception classes raised by the modelled code paths. -/
inductive PyErr where
  | indexError
  | keyError
  | valueError
  | runtimeError
  | typeError
  | attributeError
  | notImplementedError
deriving DecidableEq

/-- Decidable equality on `Except`, so closed statements about fallible
embedded functions can be settled with `decide`. -/
instance {ε α : Type} [DecidableEq ε] [DecidableEq α] : DecidableEq (Except ε α) := fun x y =>
  match x, y with
  | .ok a, .ok b =>
    match decEq a b with
    | isTrue h => isTrue (by rw [h])
    | isFalse h => isFalse (fun hh => h (Except.ok.inj hh))
  | .error a, .error b =>
    match decEq a b with
    | isTrue h => isTrue (by rw [h])
    | isFalse h => isFalse (fun hh => h (Except.error.inj hh))
  | .ok _, .error _ => isFalse (fun hh => Except.noConfusion hh)
  | .error _, .ok _ => isFalse (fun hh => Except.noConfusion hh)

/-! ## Content streams (`src/pdform/model/content_stream.py`)

A `ContentStream` holds an ordered list `_operations`; the only operations
the verified code emits are the ones below, so the embedding restricts the
operator enumeration to those. -/

/-- One content-stream operation (operator plus operands), covering the
operators emitted by `layout_text_line` / `layout_text_multiline`. -/
inductive Op where
  | rect (x y w h : ℚ)
  | clip
  | setFont (font : String) (size : ℚ)
  | setWordSpacing (w : ℚ)
  | setCharSpacing (c : ℚ)
  | moveText (tx ty : ℚ)
  | paintText (s : String)
deriving DecidableEq

/-- `ContentStream.undo`: `return self._operations.pop()`.  Python
`list.pop()` removes and returns the last element and raises `IndexError`
on an empty list.  The result pairs the popped operation with the
remaining stream. -/
def content_stream_undo (ops : List Op) : Except PyErr (Op × List Op) :=
  match ops.reverse with
  | [] => .error .indexError
  | o :: rest => .ok (o, rest.reverse)

/-! ## Rectangles (`src/pdform/model/rect.py`) -/

/-- `Rect`: `[left, bottom, right, top]`. -/
structure PRect where
  left : ℚ
  bottom : ℚ
  right : ℚ
  top : ℚ
deriving DecidableEq

/-- `Rect.width = right - left`. -/
def PRect.width (r : PRect) : ℚ := r.right - r.left

/-- `Rect.height = top - bottom`. -/
def PRect.height (r : PRect) : ℚ := r.top - r.bottom

/-! ## Fonts (`src/pdform/model/font.py`) -/

/-- The data `Font` reads from its wrapped font dictionary: `/FirstChar`,
`/Widths`, the `/FontDescriptor` fallback widths and `/Leading`, plus the
resource name and whether `/Subtype` is `/Type3`. -/
structure PFont where
  name : String
  subtypeType3 : Bool
  firstChar : Int
  widths : List ℚ
  missingWidth : Option ℚ
  avgWidth : Option ℚ
  maxWidth : Option ℚ
  leadingRaw : Option ℚ
deriving DecidableEq

/-- `Font.glyph_space_ratio`: 1000 for simple fonts, `NotImplementedError`
for Type 3 fonts. -/
def glyph_space_ratio (f : PFont) : Except PyErr ℚ :=
  if f.subtypeType3 then .error .notImplementedError else .ok 1000

/-- `Font.leading`: `self.raw.FontDescriptor.Leading or 0` (Python `or`
maps both a missing entry and `0` to `0`). -/
def PFont.leading (f : PFont) : ℚ := f.leadingRaw.getD 0

/-- The `scale` argument of `get_char_width`: Python `None`, `False`,
`True`, or a number. -/
inductive WidthScale where
  | pyNone
  | pyFalse
  | pyTrue
  | pyNum (q : ℚ)
deriving DecidableEq

/-- Python list indexing `xs[i]`: negative indices count from the end;
an index out of range (after that adjustment) raises `IndexError`. -/
def pyListGet (xs : List ℚ) (i : Int) : Except PyErr ℚ :=
  let j : Int := if i < 0 then (xs.length : Int) + i else i
  if h : 0 ≤ j ∧ j.toNat < xs.length then .ok (xs.get ⟨j.toNat, h.2⟩)
  else .error .indexError

/-- `Font.get_char_width` (`font.py` lines 62–93).
`char_code = ord(char) - int(self.raw.FirstChar)`; the guard is
`len(self.raw.Widths) > char_code`, and on success the width is read with
`self.raw.Widths[char_code]` (Python indexing, hence negative-index
wraparound when `char_code < 0`); otherwise the fallbacks
MissingWidth → AvgWidth → MaxWidth → 0 apply in order.  Scaling:
`None`/`False` return the raw width, otherwise divide by
`glyph_space_ratio`, and for a numeric scale multiply by it. -/
def get_char_width (f : PFont) (c : Char) (scale : WidthScale) : Except PyErr ℚ := do
  let char_code : Int := (c.toNat : Int) - f.firstChar
  let width ←
    if (f.widths.length : Int) > char_code then
      pyListGet f.widths char_code
    else
      match f.missingWidth with
      | some w => pure w
      | none =>
        match f.avgWidth with
        | some w => pure w
        | none =>
          match f.maxWidth with
          | some w => pure w
          | none => pure 0
  match scale with
  | .pyNone => pure width
  | .pyFalse => pure width
  | .pyTrue => do
    let r ← glyph_space_ratio f
    pure (width / r)
  | .pyNum s => do
    let r ← glyph_space_ratio f
    pure (width / r * s)

/-- Definition following the claim's wording for C7 (to be compared with
`get_char_width`): index the width table by `char_code - first_char`, and
whenever that index lies below `first_char` or at/after
`first_char + table length`, fall back to MissingWidth → AvgWidth →
MaxWidth → 0; then apply the same scaling rules.  Stated for simple
(non-Type-3) fonts. -/
def get_char_width_claim (f : PFont) (c : Char) (scale : WidthScale) : ℚ :=
  let code : Int := (c.toNat : Int) - f.firstChar
  let width :=
    if h : 0 ≤ code ∧ code.toNat < f.widths.length then
      f.widths.get ⟨code.toNat, h.2⟩
    else
      match f.missingWidth with
      | some w => w
      | none =>
        match f.avgWidth with
        | some w => w
        | none =>
          match f.maxWidth with
          | some w => w
          | none => 0
  match scale with
  | .pyNone => width
  | .pyFalse => width
  | .pyTrue => width / 1000
  | .pyNum s => width / 1000 * s

/-- `Font.get_string_width`: sum of character widths, adding
`word_spacing` after each space character and `char_spacing` after each
other character. -/
def get_string_width (f : PFont) (s : String) (scale : WidthScale)
    (char_spacing word_spacing : ℚ) : Except PyErr ℚ :=
  s.data.foldlM
    (fun w c => do
      let cw ← get_char_width f c scale
      pure (w + cw + (if c = ' ' then word_spacing else char_spacing)))
    0

/-! ## Word wrap (`Font.word_wrap`, `src/pdform/model/font.py` lines 112–150) -/

/-- Split a character list at every separator character (an executable
stand-in for `String.splitOn`, which does not reduce in the kernel). -/
def split_chars (p : Char → Bool) : List Char → List (List Char)
  | [] => [[]]
  | c :: cs =>
    if p c then [] :: split_chars p cs
    else
      match split_chars p cs with
      | [] => [[c]]
      | w :: ws => (c :: w) :: ws

/-- Python `str.splitlines()` restricted to `"\n"` separators: split on
newlines, with no empty final entry for a trailing newline (and `[]` for
the empty string). -/
def pySplitlines (s : String) : List String :=
  let parts := (split_chars (fun c => c == '\n') s.data).map String.mk
  if parts.getLast? = some "" then parts.dropLast else parts

/-- Python `str.split()` with no argument: split on whitespace,
discarding empty pieces. -/
def pySplitWs (s : String) : List String :=
  ((split_chars (fun c => c == ' ' || c == '\t' || c == '\n' || c == '\r') s.data).map
    String.mk).filter (fun w => w ≠ "")

/-- `' '.join(words)`. -/
def joinSp : List String → String
  | [] => ""
  | [w] => w
  | w :: ws => w ++ " " ++ joinSp ws

/-- The inner loop of `word_wrap` for one source line: state is
(`remaining words`, `current_width`, `current_line`, `lines`).  For each
word, `word_len = get_string_width(word, scale, char_spacing)`; if
`current_width + word_len > width` the current line is flushed and the
running width reset; the word is then appended and
`word_len + word_spacing` added.  At the end a non-empty `current_line`
is flushed. -/
def wrap_words (f : PFont) (scale : WidthScale) (char_spacing word_spacing width : ℚ) :
    List String → ℚ → List String → List String → Except PyErr (List String)
  | [], _, current_line, lines =>
    .ok (if current_line = [] then lines else lines ++ [joinSp current_line])
  | w :: ws, current_width, current_line, lines => do
    let word_len ← get_string_width f w scale char_spacing 0
    if current_width + word_len > width then
      wrap_words f scale char_spacing word_spacing width ws
        (word_len + word_spacing) [w] (lines ++ [joinSp current_line])
    else
      wrap_words f scale char_spacing word_spacing width ws
        (current_width + word_len + word_spacing) (current_line ++ [w]) lines

/-- `Font.word_wrap`: `word_spacing += get_char_width(' ', scale)`, then
split into paragraphs on newlines and wrap each paragraph's words. -/
def word_wrap (f : PFont) (s : String) (width : ℚ) (scale : WidthScale)
    (char_spacing word_spacing : ℚ) : Except PyErr (List (List String)) := do
  let ws ← get_char_width f ' ' scale
  let word_spacing := word_spacing + ws
  (pySplitlines s).mapM
    (fun line => wrap_words f scale char_spacing word_spacing width (pySplitWs line) 0 [] [])

/-! ## Multi-line text layout (`src/pdform/utils/text.py` lines 51–110)

The Python code mutates a `ContentStream` by appending operations and
calling `undo()` (remove last).  The embedding accumulates the operation
list in reverse (most recent first), so appending is `::` and `undo` is
`List.tail`; the final result is reversed back into chronological order.
Every `undo()` in this function runs on a stream that already contains
the initial `move_text`, so the list is never empty there. -/

/-- The `padding` parameter: a 2-tuple is split into `(pad_x, pad_y)`,
anything else is used for both. -/
inductive Padding where
  | single (p : ℚ)
  | pair (x y : ℚ)
deriving DecidableEq

/-- Resolve `padding` to `(pad_x, pad_y)`. -/
def Padding.resolve : Padding → ℚ × ℚ
  | .single p => (p, p)
  | .pair x y => (x, y)

/-- The inner `for line in paragraph` loop: paint the line, then
`move_text(0, -leading - font_scale)` (`adv`). -/
def line_loop (adv : ℚ) : List String → List Op → List Op
  | [], rev => rev
  | line :: rest, rev =>
    line_loop adv rest (Op.moveText 0 adv :: Op.paintText line :: rev)

/-- The outer `for paragraph in paragraphs` loop: run the line loop, then
`undo()` the last line advance and append the paragraph advance
`move_text(0, (-leading - font_scale) * paragraph_spacing)` (`pAdv`). -/
def para_loop (adv pAdv : ℚ) : List (List String) → List Op → List Op
  | [], rev => rev
  | para :: rest, rev =>
    para_loop adv pAdv rest (Op.moveText 0 pAdv :: (line_loop adv para rev).tail)

/-- `layout_text_multiline`: optional clip rectangle, optional set-font,
optional non-zero word/character spacing, initial
`move_text(rect.left + pad_x, rect.top - pad_y - font_scale)`, the
paragraph loop, and a final `undo()`. -/
def layout_text_multiline (f : PFont) (text : String) (rect : PRect) (font_scale : ℚ)
    (include_set_font include_set_spacing include_clip_rect : Bool)
    (padding : Padding) (char_spacing word_spacing : ℚ)
    (leading : Option ℚ) (paragraph_spacing : ℚ) : Except PyErr (List Op) := do
  let (pad_x, pad_y) := padding.resolve
  let l := leading.getD f.leading
  let paragraphs ← word_wrap f text (rect.width - pad_x * 2) (.pyNum font_scale)
    char_spacing word_spacing
  let rev : List Op := []
  let rev := if include_clip_rect then
      Op.clip :: Op.rect rect.left rect.bottom rect.width rect.height :: rev
    else rev
  let rev := if include_set_font then Op.setFont f.name font_scale :: rev else rev
  let rev := if include_set_spacing then
      (if char_spacing ≠ 0 then [Op.setCharSpacing char_spacing] else []) ++
        (if word_spacing ≠ 0 then [Op.setWordSpacing word_spacing] else []) ++ rev
    else rev
  let rev := Op.moveText (rect.left + pad_x) (rect.top - pad_y - font_scale) :: rev
  let rev := (para_loop (-l - font_scale) ((-l - font_scale) * paragraph_spacing)
    paragraphs rev).tail
  pure rev.reverse

/-! Spec-side description of the multi-line operation sequence, following
the wording of C6; compared against `layout_text_multiline` in the
theorems below. -/

/-- The show-text operations of one paragraph's lines, separated by the
unit line advance `moveText 0 adv`, with no trailing advance. -/
def spec_line_ops (adv : ℚ) : List String → List Op
  | [] => []
  | [line] => [Op.paintText line]
  | line :: rest => Op.paintText line :: Op.moveText 0 adv :: spec_line_ops adv rest

/-- The body of the multi-line sequence: paragraphs' line sequences
separated by the paragraph-scaled advance `moveText 0 pAdv`, with no
trailing advance after the last shown line. -/
def spec_multiline_body (adv pAdv : ℚ) : List (List String) → List Op
  | [] => []
  | [para] => spec_line_ops adv para
  | para :: rest =>
    spec_line_ops adv para ++ Op.moveText 0 pAdv :: spec_multiline_body adv pAdv rest

/-- The operations emitted before the text body, as the source orders
them: clip rectangle, set-font, then non-zero word and character
spacing. -/
def spec_preamble (f : PFont) (rect : PRect) (font_scale char_spacing word_spacing : ℚ)
    (include_set_font include_set_spacing include_clip_rect : Bool) : List Op :=
  (if include_clip_rect then
    [Op.rect rect.left rect.bottom rect.width rect.height, Op.clip]
  else []) ++
  (if include_set_font then [Op.setFont f.name font_scale] else []) ++
  (if include_set_spacing then
    (if word_spacing ≠ 0 then [Op.setWordSpacing word_spacing] else []) ++
      (if char_spacing ≠ 0 then [Op.setCharSpacing char_spacing] else [])
  else [])

/-- Count of cursor-move (`Td`) operations in a list. -/
def count_moves (ops : List Op) : Nat :=
  ops.countP (fun o => match o with | Op.moveText _ _ => true | _ => false)

/-- Total number of lines across all paragraphs. -/
def total_lines (paragraphs : List (List String)) : Nat :=
  (paragraphs.map List.length).sum

/-! ### Structure lemmas for the multi-line layout loops -/

/-- Unrolling the line loop over a non-empty paragraph: the lines'
show-text/advance pairs, reversed, in front of the incoming stream. -/
theorem line_loop_eq (adv : ℚ) : ∀ (p : List String), p ≠ [] → ∀ rev,
    line_loop adv p rev = (spec_line_ops adv p ++ [Op.moveText 0 adv]).reverse ++ rev
  | [], h, _ => absurd rfl h
  | [l], _, rev => by simp [line_loop, spec_line_ops]
  | l :: l' :: rest, _, rev => by
    have ih := line_loop_eq adv (l' :: rest) (by simp)
      (Op.moveText 0 adv :: Op.paintText l :: rev)
    show line_loop adv (l' :: rest) (Op.moveText 0 adv :: Op.paintText l :: rev)
      = (spec_line_ops adv (l :: l' :: rest) ++ [Op.moveText 0 adv]).reverse ++ rev
    rw [ih]
    show (spec_line_ops adv (l' :: rest) ++ [Op.moveText 0 adv]).reverse ++ _
      = ((Op.paintText l :: Op.moveText 0 adv :: spec_line_ops adv (l' :: rest))
          ++ [Op.moveText 0 adv]).reverse ++ rev
    simp

/-- Unrolling the paragraph loop over non-empty paragraphs: the spec body
followed by one trailing paragraph advance, reversed, in front of the
incoming stream. -/
theorem para_loop_eq (adv pAdv : ℚ) : ∀ ps, (∀ p ∈ ps, p ≠ []) → ps ≠ [] → ∀ rev,
    para_loop adv pAdv ps rev
      = (spec_multiline_body adv pAdv ps ++ [Op.moveText 0 pAdv]).reverse ++ rev
  | [], _, h, _ => absurd rfl h
  | [p], hall, _, rev => by
    have hp : p ≠ [] := hall p (by simp)
    show Op.moveText 0 pAdv :: (line_loop adv p rev).tail
      = (spec_multiline_body adv pAdv [p] ++ [Op.moveText 0 pAdv]).reverse ++ rev
    rw [line_loop_eq adv p hp rev]
    show Op.moveText 0 pAdv
        :: ((spec_line_ops adv p ++ [Op.moveText 0 adv]).reverse ++ rev).tail
      = (spec_line_ops adv p ++ [Op.moveText 0 pAdv]).reverse ++ rev
    simp
  | p :: p' :: rest, hall, _, rev => by
    have hp : p ≠ [] := hall p (by simp)
    have ih := para_loop_eq adv pAdv (p' :: rest)
      (fun x hx => hall x (List.mem_cons_of_mem _ hx)) (by simp)
      (Op.moveText 0 pAdv :: (line_loop adv p rev).tail)
    show para_loop adv pAdv (p' :: rest)
        (Op.moveText 0 pAdv :: (line_loop adv p rev).tail)
      = (spec_multiline_body adv pAdv (p :: p' :: rest) ++ [Op.moveText 0 pAdv]).reverse
          ++ rev
    rw [ih, line_loop_eq adv p hp rev]
    show _ = ((spec_line_ops adv p
        ++ Op.moveText 0 pAdv :: spec_multiline_body adv pAdv (p' :: rest))
        ++ [Op.moveText 0 pAdv]).reverse ++ rev
    simp

/-- Move-operation count of one paragraph's line sequence. -/
theorem count_moves_spec_line (adv : ℚ) : ∀ p : List String, p ≠ [] →
    count_moves (spec_line_ops adv p) = p.length - 1
  | [], h => absurd rfl h
  | [_], _ => by simp [spec_line_ops, count_moves]
  | l :: l' :: rest, _ => by
    have ih := count_moves_spec_line adv (l' :: rest) (by simp)
    show count_moves (Op.paintText l :: Op.moveText 0 adv :: spec_line_ops adv (l' :: rest))
      = (l :: l' :: rest).length - 1
    simp [count_moves, List.countP_cons] at ih ⊢
    omega

/-- Move-operation count of the whole body: one fewer than the total
number of lines. -/
theorem count_moves_spec_body (adv pAdv : ℚ) : ∀ ps, (∀ p ∈ ps, p ≠ []) → ps ≠ [] →
    count_moves (spec_multiline_body adv pAdv ps) = total_lines ps - 1
  | [], _, h => absurd rfl h
  | [p], hall, _ => by
    have hp : p ≠ [] := hall p (by simp)
    show count_moves (spec_line_ops adv p) = total_lines [p] - 1
    rw [count_moves_spec_line adv p hp]
    simp [total_lines]
  | p :: p' :: rest, hall, _ => by
    have hp : p ≠ [] := hall p (by simp)
    have hp' : p' ≠ [] := hall p' (by simp)
    have ih := count_moves_spec_body adv pAdv (p' :: rest)
      (fun x hx => hall x (List.mem_cons_of_mem _ hx)) (by simp)
    show count_moves (spec_line_ops adv p
        ++ Op.moveText 0 pAdv :: spec_multiline_body adv pAdv (p' :: rest))
      = total_lines (p :: p' :: rest) - 1
    have hlen : 1 ≤ p.length := List.length_pos.mpr hp
    have hlen' : 1 ≤ p'.length := List.length_pos.mpr hp'
    have htot : p'.length ≤ total_lines (p' :: rest) := by
      simp [total_lines]
    have hline := count_moves_spec_line adv p hp
    simp [count_moves, List.countP_append, List.countP_cons] at ih hline ⊢
    simp [total_lines] at ih ⊢
    omega

/-- A non-empty paragraph's line sequence ends with a show-text
operation. -/
theorem spec_line_getLast (adv : ℚ) : ∀ p : List String, p ≠ [] →
    ∃ s, (spec_line_ops adv p).getLast? = some (Op.paintText s)
  | [], h => absurd rfl h
  | [l], _ => ⟨l, rfl⟩
  | l :: l' :: rest, _ => by
    obtain ⟨s, hs⟩ := spec_line_getLast adv (l' :: rest) (by simp)
    refine ⟨s, ?_⟩
    show (Op.paintText l :: Op.moveText 0 adv :: spec_line_ops adv (l' :: rest)).getLast?
      = some (Op.paintText s)
    rw [List.getLast?_cons_cons]
    cases hsl : spec_line_ops adv (l' :: rest) with
    | nil => rw [hsl] at hs; simp at hs
    | cons a t => rw [hsl] at hs; rw [List.getLast?_cons_cons, hs]

/-- The body of a non-empty layout ends with a show-text operation. -/
theorem spec_body_getLast (adv pAdv : ℚ) : ∀ ps, (∀ p ∈ ps, p ≠ []) → ps ≠ [] →
    ∃ s, (spec_multiline_body adv pAdv ps).getLast? = some (Op.paintText s)
  | [], _, h => absurd rfl h
  | [p], hall, _ => by
    have hp : p ≠ [] := hall p (by simp)
    exact spec_line_getLast adv p hp
  | p :: p' :: rest, hall, _ => by
    obtain ⟨s, hs⟩ := spec_body_getLast adv pAdv (p' :: rest)
      (fun x hx => hall x (List.mem_cons_of_mem _ hx)) (by simp)
    refine ⟨s, ?_⟩
    show (spec_line_ops adv p
        ++ Op.moveText 0 pAdv :: spec_multiline_body adv pAdv (p' :: rest)).getLast?
      = some (Op.paintText s)
    cases hsb : spec_multiline_body adv pAdv (p' :: rest) with
    | nil => rw [hsb] at hs; simp at hs
    | cons a t =>
      rw [hsb] at hs
      rw [List.getLast?_append, List.getLast?_cons_cons, hs]
      rfl

/-! ### Concrete fixtures used for evaluations -/

/-- A small test font: every character falls back to MissingWidth 500
(glyph space), so each character is half the font size wide. -/
def fontA : PFont := ⟨"/Helv", false, 0, [], some 500, none, none, none⟩

/-- A 10×10 field rectangle at the origin. -/
def rectA : PRect := ⟨0, 0, 10, 10⟩

/-! ### C6 -/

/-- C6, amended: for a multiline text whose word wrap yields at least one
paragraph and no empty paragraph (no blank line), the emitted sequence is
the optional preamble, a cursor move to
`(rect.left + pad_x, rect.top - pad_y - font_size)`, then the lines'
show-text operations separated by exactly `N - 1` cursor moves — the unit
advance inside a paragraph and the paragraph-scaled advance at paragraph
boundaries — with no cursor move after the final show-text. -/
theorem c6_multiline_layout_ops (f : PFont) (text : String) (rect : PRect)
    (font_scale : ℚ) (isf iss icr : Bool) (padding : Padding) (cs ws : ℚ)
    (lead : Option ℚ) (pspc : ℚ) (pad_x pad_y : ℚ) (paragraphs : List (List String))
    (hpad : padding.resolve = (pad_x, pad_y))
    (hww : word_wrap f text (rect.width - pad_x * 2) (.pyNum font_scale) cs ws
      = .ok paragraphs)
    (hne : paragraphs ≠ []) (hall : ∀ p ∈ paragraphs, p ≠ []) :
    layout_text_multiline f text rect font_scale isf iss icr padding cs ws lead pspc
      = .ok (spec_preamble f rect font_scale cs ws isf iss icr
          ++ Op.moveText (rect.left + pad_x) (rect.top - pad_y - font_scale)
          :: spec_multiline_body (-(lead.getD f.leading) - font_scale)
               ((-(lead.getD f.leading) - font_scale) * pspc) paragraphs)
    ∧ count_moves (spec_multiline_body (-(lead.getD f.leading) - font_scale)
          ((-(lead.getD f.leading) - font_scale) * pspc) paragraphs)
        = total_lines paragraphs - 1
    ∧ ∃ s, (spec_multiline_body (-(lead.getD f.leading) - font_scale)
          ((-(lead.getD f.leading) - font_scale) * pspc) paragraphs).getLast?
        = some (Op.paintText s) := by
  refine ⟨?_, count_moves_spec_body _ _ _ hall hne, spec_body_getLast _ _ _ hall hne⟩
  simp only [layout_text_multiline, hpad, hww, Bind.bind, Except.bind]
  rw [para_loop_eq _ _ paragraphs hall hne]
  simp only [List.reverse_append, List.reverse_cons, List.reverse_nil,
    List.nil_append, List.cons_append, List.tail_cons, List.append_assoc,
    List.reverse_reverse]
  cases icr <;> cases isf <;> cases iss <;>
    by_cases hws : ws = 0 <;> by_cases hcs : cs = 0 <;>
      simp_all [spec_preamble, List.reverse_append, pure, Except.pure]

/-- C6, counterexample to the claim as stated: for the text `"\na"`
(leading blank line) the word wrap yields an empty first paragraph, the
empty paragraph's `undo()` removes the initial cursor-positioning
operation, and the emitted sequence starts with the relative advance
`moveText 0 (-1)` instead of positioning the cursor at
`(rect.left + pad_x, rect.top - pad_y - font_size) = (0, 9)`. -/
theorem c6_counterexample :
    layout_text_multiline fontA "\na" rectA 1 false false false (.single 0) 0 0 none 1
      = .ok [Op.moveText 0 (-1), Op.paintText "a"]
    ∧ Op.moveText 0 (-1) ≠ Op.moveText (rectA.left + 0) (rectA.top - 0 - 1) := by
  constructor
  · decide
  · decide

/-- C6, witness: the amended theorem applied to the two-paragraph text
`"a\nb"` with all preamble options enabled. -/
theorem c6_witness :
    layout_text_multiline fontA "a\nb" rectA 1 true true true (.single 0) 0 0 none 1
      = .ok (spec_preamble fontA rectA 1 0 0 true true true
          ++ Op.moveText (rectA.left + 0) (rectA.top - 0 - 1)
          :: spec_multiline_body (-((none : Option ℚ).getD fontA.leading) - 1)
               ((-((none : Option ℚ).getD fontA.leading) - 1) * 1) [["a"], ["b"]])
    ∧ count_moves (spec_multiline_body (-((none : Option ℚ).getD fontA.leading) - 1)
          ((-((none : Option ℚ).getD fontA.leading) - 1) * 1) [["a"], ["b"]])
        = total_lines [["a"], ["b"]] - 1
    ∧ ∃ s, (spec_multiline_body (-((none : Option ℚ).getD fontA.leading) - 1)
          ((-((none : Option ℚ).getD fontA.leading) - 1) * 1) [["a"], ["b"]]).getLast?
        = some (Op.paintText s) :=
  c6_multiline_layout_ops fontA "a\nb" rectA 1 true true true (.single 0) 0 0 none 1
    0 0 [["a"], ["b"]] rfl (by decide) (by decide) (by decide)

/-! ### C10 -/

/-- C10: `ContentStream.undo` removes exactly the most recently appended
operation and returns it, leaving all earlier operations unchanged in
order; on an empty operation list it raises (pop from an empty list)
rather than acting as a no-op. -/
theorem c10_undo_pops_last :
    (∀ (ops : List Op) (o : Op), content_stream_undo (ops ++ [o]) = .ok (o, ops))
    ∧ content_stream_undo [] = .error .indexError := by
  constructor
  · intro ops o
    simp [content_stream_undo]
  · rfl

/-! ## Default-appearance parsing (`layout_form_text`,
`src/pdform/model/form_field.py` lines 329–337)

The font name and size are extracted with
`re.search(b'(\/[!-~]+)\s+(\d+(?:\.\d+))\s*Tf', da)`; note that the
fractional group `(?:\.\d+)` is not optional.  Greedy matching without
backtracking is exact for this pattern because the character class at
each `+`/`*` boundary is disjoint from what must follow it
(`[!-~]` vs `\s`, `\d` vs `.`, `\s` vs `T`). -/

/-- `[!-~]`: printable, non-space ASCII. -/
def isNameChar (c : Char) : Bool := '!' ≤ c && c ≤ '~'

/-- `\s` on Python byte strings. -/
def isPySpace (c : Char) : Bool :=
  c == ' ' || c == '\t' || c == '\n' || c == '\r' || c == '\x0b' || c == '\x0c'

/-- `\d`. -/
def isDigitChar (c : Char) : Bool := '0' ≤ c && c ≤ '9'

/-- Attempt to match `(\/[!-~]+)\s+(\d+(?:\.\d+))\s*Tf` at the head of
the character list, returning the two captured groups. -/
def match_tf_at (cs : List Char) : Option (String × String) :=
  match cs with
  | c0 :: rest =>
    if c0 ≠ '/' then none else
    let nameRun := rest.takeWhile isNameChar
    if nameRun.isEmpty then none else
    let afterName := rest.drop nameRun.length
    let sp := afterName.takeWhile isPySpace
    if sp.isEmpty then none else
    let afterSp := afterName.drop sp.length
    let intRun := afterSp.takeWhile isDigitChar
    if intRun.isEmpty then none else
    match afterSp.drop intRun.length with
    | dot :: afterDot =>
      if dot ≠ '.' then none else
      let fracRun := afterDot.takeWhile isDigitChar
      if fracRun.isEmpty then none else
      let afterFrac := afterDot.drop fracRun.length
      match afterFrac.drop (afterFrac.takeWhile isPySpace).length with
      | t :: f :: _ =>
        if t = 'T' ∧ f = 'f' then
          some (String.mk ('/' :: nameRun), String.mk (intRun ++ '.' :: fracRun))
        else none
      | _ => none
    | _ => none
  | _ => none

/-- `re.search`: try the pattern at each start position, leftmost match
first. -/
def search_tf : List Char → Option (String × String)
  | [] => none
  | c :: rest =>
    match match_tf_at (c :: rest) with
    | some r => some r
    | none => search_tf rest

/-- Definition following the claim's grammar for C4 (to be compared with
`search_tf`): a font name token prefixed by the name-escape character,
whitespace, a numeric size (digits with an *optional* fractional part),
then the `Tf` operator token. -/
def match_tf_claim_at (cs : List Char) : Option (String × String) :=
  match cs with
  | c0 :: rest =>
    if c0 ≠ '/' then none else
    let nameRun := rest.takeWhile isNameChar
    if nameRun.isEmpty then none else
    let afterName := rest.drop nameRun.length
    let sp := afterName.takeWhile isPySpace
    if sp.isEmpty then none else
    let afterSp := afterName.drop sp.length
    let intRun := afterSp.takeWhile isDigitChar
    if intRun.isEmpty then none else
    let afterInt := afterSp.drop intRun.length
    let (numChars, afterNum) :=
      match afterInt with
      | dot :: afterDot =>
        if dot = '.' then
          let fracRun := afterDot.takeWhile isDigitChar
          if fracRun.isEmpty then (intRun, afterInt)
          else (intRun ++ '.' :: fracRun, afterDot.drop fracRun.length)
        else (intRun, afterInt)
      | _ => (intRun, afterInt)
    match afterNum.drop (afterNum.takeWhile isPySpace).length with
    | t :: f :: _ =>
      if t = 'T' ∧ f = 'f' then some (String.mk ('/' :: nameRun), String.mk numChars)
      else none
    | _ => none
  | _ => none

/-- The claim's grammar, searched at each start position. -/
def search_tf_claim : List Char → Option (String × String)
  | [] => none
  | c :: rest =>
    match match_tf_claim_at (c :: rest) with
    | some r => some r
    | none => search_tf_claim rest

/-- The font-extraction step of `layout_form_text`: search the
default-appearance string for the `Tf` pattern; no match raises
`ValueError` ("Invalid or missing /DA"). -/
def layout_form_text_font (da : String) : Except PyErr (String × String) :=
  match search_tf da.data with
  | none => .error .valueError
  | some r => .ok r

/-! ### C4 -/

/-- C4: the source regex demands a fractional part in the size
(`(?:\.\d+)` without `?`), so the default-appearance string
`"/Helv 12 Tf"` — which does contain a font name token, whitespace, a
numeric size and the set-font operator — fails to parse and raises
`ValueError`, while the claim's grammar extracts `("/Helv", "12")`.
Sizes with a fractional part and truly malformed strings behave as the
claim states. -/
theorem c4_da_integer_size_rejected :
    layout_form_text_font "/Helv 12 Tf" = .error .valueError
    ∧ search_tf_claim "/Helv 12 Tf".data = some ("/Helv", "12")
    ∧ layout_form_text_font "/Helv 12.0 Tf" = .ok ("/Helv", "12.0")
    ∧ layout_form_text_font "/Helv Tf" = .error .valueError := by
  refine ⟨by decide, by decide, by decide, by decide⟩

/-! ### C7 -/

/-- A font with `FirstChar = 65` and a two-entry width table, plus a
`MissingWidth` fallback of 250. -/
def fontC7 : PFont := ⟨"/F", false, 65, [500, 600], some 250, none, none, none⟩

/-- C7: for a character below `first_char` the width-table guard
`len(Widths) > char_code` still passes, and Python's negative indexing
reads a width from the *end* of the table — `'@'` (code 64, one below
`FirstChar`) yields 600 instead of the MissingWidth fallback 250 that
the claim requires; a character far enough below raises `IndexError`
instead of falling back.  In-range lookup and above-range fallback, and
the scaling rules, behave as the claim states. -/
theorem c7_get_char_width_negative_index :
    get_char_width fontC7 '@' .pyNone = .ok 600
    ∧ get_char_width_claim fontC7 '@' .pyNone = 250
    ∧ get_char_width fontC7 (Char.ofNat 0) .pyNone = .error .indexError
    ∧ get_char_width_claim fontC7 (Char.ofNat 0) .pyNone = 250
    ∧ get_char_width fontC7 'C' .pyNone = .ok 250
    ∧ get_char_width fontC7 'A' .pyNone = .ok 500
    ∧ get_char_width fontC7 'A' .pyTrue = .ok (1/2)
    ∧ get_char_width fontC7 'A' (.pyNum 10) = .ok 5 := by
  refine ⟨by decide, by decide, by decide, by decide, by decide, by decide, by decide, by decide⟩

/-! ## Image stamping (`src/pdform/tools/stamp.py`) -/

/-- The fit computation of `stamp` (lines 24–59): compare the image's
aspect ratio `img_height / img_width` with the target's
`rect.height / rect.width` and return
`(scale_factor, margin_x, margin_y)`. -/
def stamp_fit (img_width img_height : ℚ) (rect : PRect) : ℚ × ℚ × ℚ :=
  let image_ratio := img_height / img_width
  let target_ratio := rect.height / rect.width
  if image_ratio > target_ratio then
    if img_height > rect.height then
      (rect.height / img_height, (rect.width - img_width * (rect.height / img_height)) / 2, 0)
    else
      (1, (rect.width - img_width) / 2, (rect.height - img_height) / 2)
  else if image_ratio < target_ratio then
    if img_width > rect.width then
      (rect.width / img_width, 0, (rect.height - img_height * (rect.width / img_width)) / 2)
    else
      (1, (rect.width - img_width) / 2, (rect.height - img_height) / 2)
  else
    if img_height > rect.height then
      (rect.height / img_height, 0, 0)
    else
      (1, (rect.width - img_width) / 2, (rect.height - img_height) / 2)

/-- The placement `stamp` performs (lines 73–76): the merged image is
scaled by `scale_factor` and anchored at `x = rect.left` — the
`+margin_x` term is commented out in the source — and
`y = rect.bottom + margin_y`.  Returns `(scale, x, y)`. -/
def stamp_place (img_width img_height : ℚ) (rect : PRect) : ℚ × ℚ × ℚ :=
  match stamp_fit img_width img_height rect with
  | (s, _mx, my) => (s, rect.left, rect.bottom + my)

/-! ### C8 -/

/-- A 40×20 target rectangle at the origin. -/
def rectWide : PRect := ⟨0, 0, 40, 20⟩

/-- C8, counterexample to the claim as stated: a 10×10 image in the
40×20 rectangle computes `margin_x = 15`, but the placement x-coordinate
is `rect.left = 0`, not `rect.left + margin_x = 15` — the horizontal
margin is never applied. -/
theorem c8_counterexample :
    stamp_fit 10 10 rectWide = (1, 15, 5)
    ∧ stamp_place 10 10 rectWide = (1, 0, 5)
    ∧ (0 : ℚ) ≠ rectWide.left + 15 := by
  refine ⟨by decide, by decide, by decide⟩

/-- C8, amended: with matching aspect ratios, a fitting image gets scale
factor 1 and centering margins in both axes, and an oversized image gets
scale `rect.height / img_height` with zero margins; the image is placed
at `x = rect.left` (horizontal margin computed but not applied) and
`y = rect.bottom + margin_y`, at the computed scale. -/
theorem c8_stamp_matching_ratio (iw ih : ℚ) (rect : PRect)
    (hiw : 0 < iw) (hih : 0 < ih) (hrw : 0 < rect.width) (hrh : 0 < rect.height)
    (hratio : ih / iw = rect.height / rect.width) :
    (ih ≤ rect.height →
      stamp_fit iw ih rect = (1, (rect.width - iw) / 2, (rect.height - ih) / 2)
      ∧ stamp_place iw ih rect = (1, rect.left, rect.bottom + (rect.height - ih) / 2))
    ∧ (rect.height < ih →
      stamp_fit iw ih rect = (rect.height / ih, 0, 0)
      ∧ stamp_place iw ih rect = (rect.height / ih, rect.left, rect.bottom + 0)) := by
  have h1 : ¬ (ih / iw > rect.height / rect.width) := by rw [hratio]; exact lt_irrefl _
  have h2 : ¬ (ih / iw < rect.height / rect.width) := by rw [hratio]; exact lt_irrefl _
  constructor
  · intro hle
    have h3 : ¬ (ih > rect.height) := not_lt.mpr hle
    constructor <;> simp [stamp_fit, stamp_place, h1, h2, h3]
  · intro hlt
    constructor <;> simp [stamp_fit, stamp_place, h1, h2, hlt]

/-- A 20×20 target rectangle at the origin. -/
def rectSq : PRect := ⟨0, 0, 20, 20⟩

/-- A 5×5 target rectangle at the origin. -/
def rectSm : PRect := ⟨0, 0, 5, 5⟩

/-- C8, witness: the amended theorem applied to a fitting 10×10 image in
a 20×20 rectangle and to an oversized 10×10 image in a 5×5 rectangle. -/
theorem c8_witness :
    (stamp_fit 10 10 rectSq = (1, (rectSq.width - 10) / 2, (rectSq.height - 10) / 2)
      ∧ stamp_place 10 10 rectSq = (1, rectSq.left, rectSq.bottom + (rectSq.height - 10) / 2))
    ∧ (stamp_fit 10 10 rectSm = (rectSm.height / 10, 0, 0)
      ∧ stamp_place 10 10 rectSm = (rectSm.height / 10, rectSm.left, rectSm.bottom + 0)) :=
  ⟨(c8_stamp_matching_ratio 10 10 rectSq (by decide) (by decide) (by decide) (by decide)
      (by decide)).1 (by decide),
   (c8_stamp_matching_ratio 10 10 rectSm (by decide) (by decide) (by decide) (by decide)
      (by decide)).2 (by decide)⟩

/-! ## Annotation / field dictionaries

`PAnnot` models a form-field or annotation dictionary with exactly the
entries the verified code reads: `/Subtype`, `/FT`, `/T`, `/V`, `/AS`,
`/Ff`, the normal-appearance state names `AP.N.keys()`, `/Kids` and the
`/Parent` back-reference.  Names are stored with their leading slash. -/

/-- A form-field / annotation dictionary node. -/
inductive PAnnot : Type where
  | mk (subtype ft t v asv : Option String) (ff : Option Nat)
      (apN : Option (List String)) (kids : Option (List PAnnot))
      (parent : Option PAnnot)

compile_inductive% PAnnot

/-- `/Subtype`. -/
def PAnnot.subtype : PAnnot → Option String | .mk x _ _ _ _ _ _ _ _ => x
/-- `/FT` (this node's own entry). -/
def PAnnot.ft : PAnnot → Option String | .mk _ x _ _ _ _ _ _ _ => x
/-- `/T` (the local, partial field name). -/
def PAnnot.t : PAnnot → Option String | .mk _ _ x _ _ _ _ _ _ => x
/-- `/V`. -/
def PAnnot.v : PAnnot → Option String | .mk _ _ _ x _ _ _ _ _ => x
/-- `/AS` (the appearance-state selector). -/
def PAnnot.asv : PAnnot → Option String | .mk _ _ _ _ x _ _ _ _ => x
/-- `/Ff` (this node's own entry). -/
def PAnnot.ff : PAnnot → Option Nat | .mk _ _ _ _ _ x _ _ _ => x
/-- The key list of the normal appearance dictionary `AP.N`; `none` when
`/AP` (or `/AP/N`) is absent. -/
def PAnnot.apN : PAnnot → Option (List String) | .mk _ _ _ _ _ _ x _ _ => x
/-- `/Kids`. -/
def PAnnot.kids : PAnnot → Option (List PAnnot) | .mk _ _ _ _ _ _ _ x _ => x
/-- `/Parent`. -/
def PAnnot.parent : PAnnot → Option PAnnot | .mk _ _ _ _ _ _ _ _ x => x

/-- Write `/V`. -/
def PAnnot.setV (a : PAnnot) (x : Option String) : PAnnot :=
  match a with | .mk st ft t _ asv ff ap k p => .mk st ft t x asv ff ap k p
/-- Write `/AS`. -/
def PAnnot.setAS (a : PAnnot) (x : Option String) : PAnnot :=
  match a with | .mk st ft t v _ ff ap k p => .mk st ft t v x ff ap k p
/-- Write `/Kids`. -/
def PAnnot.setKids (a : PAnnot) (x : Option (List PAnnot)) : PAnnot :=
  match a with | .mk st ft t v asv ff ap _ p => .mk st ft t v asv ff ap x p

/-- `setV` does not touch the appearance dictionary. -/
theorem PAnnot.apN_setV (a : PAnnot) (x : Option String) : (a.setV x).apN = a.apN := by
  cases a <;> rfl

/-- `setAS` does not touch the appearance dictionary. -/
theorem PAnnot.apN_setAS (a : PAnnot) (x : Option String) : (a.setAS x).apN = a.apN := by
  cases a <;> rfl

/-- `get_inheritable` (`src/pdform/utils/dictionaries.py`): look the
entry up on the node itself, otherwise recurse into `/Parent`, otherwise
`None`.  The accessed entry is abstracted as a getter function. -/
def get_inheritable {α : Type} (get : PAnnot → Option α) : PAnnot → Option α
  | a@(.mk _ _ _ _ _ _ _ _ parent) =>
    match get a with
    | some x => some x
    | none =>
      match parent with
      | some p => get_inheritable get p
      | none => none

/-- Python f-string interpolation of an `Optional[str]`: `None` prints as
the text `"None"`. -/
def pyFmtOptStr : Option String → String
  | none => "None"
  | some s => s

/-- `Field.get_qualified_field_name` (`form_field.py` lines 90–103):
no `/T` and a `/Parent` → recurse; no `/T` and no `/Parent` → `None`;
`/T` and a `/Parent` → `f"{qualified(parent)}.{T}"` (note the f-string
formats a `None` parent result as the text `"None"`); `/T` alone → `T`. -/
def get_qualified_field_name : PAnnot → Option String
  | .mk _ _ t _ _ _ _ _ parent =>
    match t, parent with
    | none, some p => get_qualified_field_name p
    | none, none => none
    | some tv, some p => some (pyFmtOptStr (get_qualified_field_name p) ++ "." ++ tv)
    | some tv, none => some tv

/-- The derived input type (`InputType`). -/
inductive InputType where
  | text | textarea | password | select | combo | checkbox | radio | button | signature
deriving DecidableEq

/-- `Field.field_flags`: the inheritable `/Ff` value through
`FieldFlags.lookup`, which maps an absent value to 0. -/
def field_flags (a : PAnnot) : Nat := (get_inheritable PAnnot.ff a).getD 0

/-- `Field.input_type` (`form_field.py` lines 105–132), with the flag
bits the source tests: Radio = bit 15, Pushbutton = bit 16,
Combo = bit 17, Multiline = bit 12 (the `/Tx` branch really tests the
Pushbutton bit for password). -/
def input_type (a : PAnnot) : Option InputType :=
  let flags := field_flags a
  let field_type := get_inheritable PAnnot.ft a
  if field_type = some "/Sig" then some .signature
  else if field_type = some "/Btn" then
    if flags.testBit 15 then some .radio
    else if flags.testBit 16 then some .button
    else some .checkbox
  else if field_type = some "/Ch" then
    if flags.testBit 17 then some .combo else some .select
  else if field_type = some "/Tx" then
    if flags.testBit 16 then some .password
    else if flags.testBit 12 then some .textarea
    else some .text
  else none

/-! ## Form traversal (`iter_fields`, `src/pdform/tools/form.py` lines 8–42)

`iter_fields` is a generator; the embedding returns the list of yielded
annotations together with the `radios` deduplication set (modelled as a
list of qualified names, threaded through the iteration of one call and
fresh — `[]` — for each recursive call, exactly as the source creates a
new `radios` set per invocation).  `annot.Parent` on a node without
`/Parent` raises (pikepdf attribute access), modelled as
`attributeError`. -/

/-- The yielded annotations of `iter_fields` over a list of annotations:
non-widgets are skipped (their `/Kids`, if any, are recursed into);
radio groups are yielded whole; single radio buttons yield their parent
once per qualified name; other nodes with `/Kids` are recursed into;
leaves are yielded.

The generator recurses both into the tail of the list and into a node's
`/Kids`; Lean's termination checker cannot follow that nested structural
recursion directly, so the recursion is driven by a fuel counter.  Every
recursive call is on a list of strictly smaller `sizeOf`, so fuel
`sizeOf annots` (used by the `iter_fields` wrapper below) strictly
exceeds the depth of any call chain and the fuel-exhausted branch is
unreachable. -/
def iter_fields_fuel : Nat → List PAnnot → List (Option String) →
    Except PyErr (List PAnnot × List (Option String))
  | 0, _, _ => .error .runtimeError
  | _ + 1, [], radios => .ok ([], radios)
  | fuel + 1, .mk st ft t v asv ff ap kids parent :: rest, radios =>
    let a := PAnnot.mk st ft t v asv ff ap kids parent
    if st ≠ some "/Widget" then
      match kids with
      | some ks => do
        let (sub, _) ← iter_fields_fuel fuel ks []
        let (tail, radios2) ← iter_fields_fuel fuel rest radios
        .ok (sub ++ tail, radios2)
      | none => iter_fields_fuel fuel rest radios
    else if input_type a = some .radio then
      match kids with
      | some _ => do
        let (tail, radios2) ← iter_fields_fuel fuel rest radios
        .ok (a :: tail, radios2)
      | none =>
        let qn := get_qualified_field_name a
        if qn ∈ radios then iter_fields_fuel fuel rest radios
        else
          match parent with
          | none => .error .attributeError
          | some p => do
            let (tail, radios2) ← iter_fields_fuel fuel rest (radios ++ [qn])
            .ok (p :: tail, radios2)
    else
      match kids with
      | some ks => do
        let (sub, _) ← iter_fields_fuel fuel ks []
        let (tail, radios2) ← iter_fields_fuel fuel rest radios
        .ok (sub ++ tail, radios2)
      | none => do
        let (tail, radios2) ← iter_fields_fuel fuel rest radios
        .ok (a :: tail, radios2)

/-- `iter_fields` over a list of annotations, with enough fuel for the
whole tree. -/
def iter_fields (annots : List PAnnot) (radios : List (Option String)) :
    Except PyErr (List PAnnot × List (Option String)) :=
  iter_fields_fuel (sizeOf annots) annots radios

/-! ## Form filling (`fill_form`, `src/pdform/tools/form.py` lines 45–82)

The value the fill data associates with a field: `fill_form` only
distinguishes `None` (skip) from anything else. -/

/-- One fill-data value. -/
inductive FillVal where
  | pyNone
  | value (s : String)
deriving DecidableEq

/-- `data[key]` lookup (`key in data` ↔ the result is `some _`). -/
def lookupData (data : List (String × FillVal)) (k : String) : Option FillVal :=
  (data.find? (fun p => p.1 == k)).map Prod.snd

/-- The guard `if key and key in data and data[key] is not None` —
Python string truthiness makes an empty qualified name falsy. -/
def has_data (data : List (String × FillVal)) (key : Option String) : Bool :=
  match key with
  | none => false
  | some k =>
    k ≠ "" &&
      match lookupData data k with
      | some (.value _) => true
      | _ => false

/-- The indices `fill_form` collects into `to_delete`: positions in the
*enumeration of the yielded fields* (not in the page's annotation list)
whose field has fill data and whose inheritable `/FT` is `/Sig`. -/
def sig_delete_indices (data : List (String × FillVal)) : Nat → List PAnnot → List Nat
  | _, [] => []
  | i, a :: rest =>
    if has_data data (get_qualified_field_name a)
        && (get_inheritable PAnnot.ft a == some "/Sig") then
      i :: sig_delete_indices data (i + 1) rest
    else
      sig_delete_indices data (i + 1) rest

/-- `del lst[i]` for a natural index: remove position `i`, `IndexError`
out of range. -/
def pyDelAt (l : List PAnnot) (i : Nat) : Except PyErr (List PAnnot) :=
  if i < l.length then .ok (l.take i ++ l.drop (i + 1)) else .error .indexError

/-- The per-page body of `fill_form`, tracking the page's annotation
list: scan `iter_fields(pdf, page.Annots)` with `enumerate`, collect the
indices of signature fields that have fill data, then
`for index in reversed(to_delete): del page.Annots[index]`.
Non-signature value assignments (`field.value = data[key]`) and the
`stamp(...)` call mutate dictionary contents and page content but never
the page's annotation list, so the model returns the surviving
annotation list (assignments are assumed not to raise). -/
def fill_form_page (data : List (String × FillVal)) (annots : List PAnnot) :
    Except PyErr (List PAnnot) := do
  let (fields, _) ← iter_fields annots []
  let to_delete := sig_delete_indices data 0 fields
  to_delete.reverse.foldlM pyDelAt annots

/-! ## Value assignment (`Field._set_value_radiogroup`,
`Field._set_value_checkbox`, `src/pdform/model/form_field.py`) -/

/-- A Python value handed to the value setter: a PDF name, a `str` (or
`bytes`), a boolean, `None`, or any other object. -/
inductive PyVal where
  | name (s : String)
  | str (s : String)
  | bool (b : Bool)
  | pyNone
  | other
deriving DecidableEq

/-- Python `str()` of the values above (`other` stands for an arbitrary
object, whose text form is irrelevant to the verified behaviour). -/
def pyStr : PyVal → String
  | .name s => s
  | .str s => s
  | .bool true => "True"
  | .bool false => "False"
  | .pyNone => "None"
  | .other => "<object>"

/-- The coercion at the top of `_set_value_radiogroup` (lines 218–222):
a `Name` passes through; anything else is turned into a string and
prefixed with `/` unless it already starts with one (`value[0]` on an
empty string raises `IndexError`). -/
def coerce_radio_name (v : PyVal) : Except PyErr String :=
  match v with
  | .name s => .ok s
  | _ =>
    let s := pyStr v
    match s.data with
    | [] => .error .indexError
    | c :: _ => .ok (if c = '/' then s else "/" ++ s)

/-- `set(keys)` for a list of appearance-state names.  CPython's set
iteration and `set.pop()` order is unspecified; the model keeps a
canonical duplicate-free list, and the verified statements depend only
on membership and on the choice being a deterministic function of the
keys. -/
def pySet (l : List String) : List String := l.dedup

/-- A kid's non-"Off" appearance states:
`states = set(kid.AP.N.keys()); states.discard(Off)` (empty when the kid
has no appearance dictionary). -/
def kid_non_off_states (kid : PAnnot) : List String :=
  match kid.apN with
  | some keys => (pySet keys).filter (fun s => s ≠ "/Off")
  | none => []

/-- The per-kid body of the radio-group loop (lines 229–236): if the
assigned name is among the kid's non-Off states, select it; otherwise
reset an existing `/AS` entry to `/Off`; otherwise leave the kid alone.
Reading `kid.AP.N` without an appearance dictionary raises. -/
def radio_kid_update (value : String) (kid : PAnnot) : Except PyErr PAnnot :=
  match kid.apN with
  | none => .error .attributeError
  | some keys =>
    let states := (pySet keys).filter (fun s => s ≠ "/Off")
    if value ∈ states then .ok (kid.setAS (some value))
    else if kid.asv.isSome then .ok (kid.setAS (some "/Off"))
    else .ok kid

/-- Definition following the claim's wording for C3, the successful
per-kid outcome: selector set to the value when it matches a non-Off
state, reset to `/Off` when it does not match but an `/AS` entry exists,
untouched otherwise. -/
def radio_kid_spec (value : String) (kid : PAnnot) : PAnnot :=
  if value ∈ kid_non_off_states kid then kid.setAS (some value)
  else if kid.asv.isSome then kid.setAS (some "/Off")
  else kid

/-- The `for kid in group.Kids` loop: update each kid in order, the
first raise aborting the loop. -/
def radio_kids_update (value : String) : List PAnnot → Except PyErr (List PAnnot)
  | [] => .ok []
  | k :: rest => do
    let k2 ← radio_kid_update value k
    let rest2 ← radio_kids_update value rest
    .ok (k2 :: rest2)

/-- `Field._set_value_radiogroup` (lines 217–238): coerce the value to a
name; when the node has no `/Kids`, the source executes
`group = Field(self.raw.Parent)` — a single-argument call of
`Wrapper.__new__(cls, pdf, raw)` (`src/pdform/model/base.py` line 12) —
which raises `TypeError` for the missing `raw` argument before the
orphan-radio-button check can run.  With `/Kids`, update every kid and
then set the group's `/V`. -/
def set_value_radiogroup (a : PAnnot) (v : PyVal) : Except PyErr PAnnot := do
  let value ← coerce_radio_name v
  match a.kids with
  | none => .error .typeError
  | some kids => do
    let kids2 ← radio_kids_update value kids
    .ok ((a.setKids (some kids2)).setV (some value))

/-- `Field._set_value_checkbox`, continuation after the exact-match
branch (lines 249–259): `states.discard(Off); on = Name(states.pop())`
runs before the value is inspected, so an appearance dictionary with no
non-Off state raises `KeyError` for every non-matching value; with at
least one, `set.pop()` returns an arbitrary state (the model's canonical
choice is the first).  `True` sets `/V` and `/AS` to the popped state,
`False`/`None` to `/Off`, anything else raises `ValueError`. -/
def set_value_checkbox_rest (a : PAnnot) (keys : List String) (value : PyVal) :
    Except PyErr PAnnot :=
  match (pySet keys).filter (fun k => k ≠ "/Off") with
  | [] => .error .keyError
  | onState :: _ =>
    match value with
    | .bool true => .ok ((a.setV (some onState)).setAS (some onState))
    | .bool false => .ok ((a.setV (some "/Off")).setAS (some "/Off"))
    | .pyNone => .ok ((a.setV (some "/Off")).setAS (some "/Off"))
    | _ => .error .valueError

/-- `Field._set_value_checkbox` (lines 240–259): read the `/N`
appearance keys; a `str`/`bytes`/`Name` value equal to one of them is
used directly for both `/V` and `/AS`; otherwise continue with the
discovered on-state. -/
def set_value_checkbox (a : PAnnot) (value : PyVal) : Except PyErr PAnnot :=
  match a.apN with
  | none => .error .attributeError
  | some keys =>
    match value with
    | .name s =>
      if s ∈ pySet keys then .ok ((a.setV (some s)).setAS (some s))
      else set_value_checkbox_rest a keys value
    | .str s =>
      if s ∈ pySet keys then .ok ((a.setV (some s)).setAS (some s))
      else set_value_checkbox_rest a keys value
    | _ => set_value_checkbox_rest a keys value

/-! ### C5 -/

/-- An annotation dictionary with no entries at all (no `/T`, no
`/Parent`). -/
def unnamedRoot : PAnnot := .mk none none none none none none none none none

/-- A named leaf whose only ancestor is unnamed. -/
def leafUnderUnnamed : PAnnot :=
  .mk none none (some "leaf") none none none none none (some unnamedRoot)

/-- A named root node. -/
def namedRoot : PAnnot := .mk none none (some "root") none none none none none none

/-- An unnamed middle node under the named root. -/
def midUnnamed : PAnnot := .mk none none none none none none none none (some namedRoot)

/-- A named leaf under the unnamed middle node. -/
def leafUnderMid : PAnnot :=
  .mk none none (some "leaf") none none none none none (some midUnnamed)

/-- C5: when every ancestor of a named node is unnamed, the recursion
returns `None` and the f-string interpolates it as the text `"None"`, so
the qualified name is `"None.leaf"` — not the bare local name `"leaf"`
the claim requires, and `"None"` is exactly the placeholder text the
claim rules out.  (The three-level chain with an unnamed middle node
does skip the middle segment as claimed.) -/
theorem c5_qualified_name_none_prefix :
    get_qualified_field_name leafUnderUnnamed = some "None.leaf"
    ∧ "None.leaf" ≠ "leaf"
    ∧ get_qualified_field_name leafUnderMid = some "root.leaf" := by
  refine ⟨rfl, by decide, rfl⟩

/-! ### C1 -/

/-- A non-widget page annotation (e.g. a link) with no `/Kids`. -/
def linkAnnot : PAnnot := .mk (some "/Link") none none none none none none none none

/-- A signature-field widget annotation named `sig1`. -/
def sigAnnot : PAnnot :=
  .mk (some "/Widget") (some "/Sig") (some "sig1") none none none none none none

/-- Fill data carrying an image for the signature field. -/
def sigData : List (String × FillVal) := [("sig1", .value "sig.png")]

/-- C1: the indices collected in `to_delete` enumerate the *yielded
fields*, not positions in `page.Annots`.  On a page whose annotation
list is `[link, sig]` the scan skips the non-widget link, yields only
the signature widget — at enumeration index 0 — and the deletion then
removes `page.Annots[0]`, the link: the signature widget survives and a
non-signature annotation is deleted instead. -/
theorem c1_fill_form_deletes_wrong_annotation :
    iter_fields [linkAnnot, sigAnnot] [] = .ok ([sigAnnot], [])
    ∧ sig_delete_indices sigData 0 [sigAnnot] = [0]
    ∧ fill_form_page sigData [linkAnnot, sigAnnot] = .ok [sigAnnot]
    ∧ sigAnnot.ft = some "/Sig"
    ∧ linkAnnot.ft = none := by
  refine ⟨rfl, rfl, rfl, rfl, rfl⟩

/-! ### C9 -/

/-- A radio-group parent: `/Btn` with the Radio flag bit (1 << 15). -/
def radioParent : PAnnot :=
  .mk none (some "/Btn") (some "grp") none none (some 32768) none (some []) none

/-- A single radio-button widget (no `/Kids`) whose `/Parent` is the
radio group; its field type and flags are inherited. -/
def orphanRadio : PAnnot :=
  .mk (some "/Widget") none (some "r1") none none none none none (some radioParent)

/-- C9: for a kid-less radio node the source executes
`Field(self.raw.Parent)`, passing a single argument to
`Wrapper.__new__(cls, pdf, raw)`, which raises `TypeError` — even though
the parent's derived input type *is* radio, the assignment neither
proceeds on the parent group nor reaches the orphan-radio-button
configuration error. -/
theorem c9_orphan_radio_raises_type_error :
    set_value_radiogroup orphanRadio (.name "/1") = .error .typeError
    ∧ orphanRadio.kids = none
    ∧ input_type orphanRadio = some .radio
    ∧ input_type radioParent = some .radio := by
  refine ⟨rfl, rfl, by decide, by decide⟩

/-! ### C3 -/

/-- A kid with an appearance dictionary succeeds with the claim-side
per-kid outcome. -/
theorem radio_kid_update_ok (value : String) (kid : PAnnot) (h : (kid.apN).isSome) :
    radio_kid_update value kid = .ok (radio_kid_spec value kid) := by
  match hap : kid.apN with
  | none => rw [hap] at h; simp at h
  | some keys =>
    simp only [radio_kid_update, radio_kid_spec, kid_non_off_states, hap]
    split_ifs <;> rfl

/-- Mapping the per-kid update over kids that all carry appearance
dictionaries succeeds elementwise. -/
theorem radio_kids_update_ok (value : String) : ∀ kids : List PAnnot,
    (∀ k ∈ kids, (k.apN).isSome) →
    radio_kids_update value kids = .ok (kids.map (radio_kid_spec value))
  | [], _ => by simp [radio_kids_update]
  | k :: rest, hall => by
    have h1 := radio_kid_update_ok value k (hall k (by simp))
    have ih := radio_kids_update_ok value rest
      (fun x hx => hall x (List.mem_cons_of_mem _ hx))
    simp [radio_kids_update, h1, ih, Bind.bind, Except.bind, pure, Except.pure]

/-- C3: assigning a state token `v` to a radio group node (with `/Kids`,
each kid carrying an appearance dictionary) updates every kid — selector
set to `v` when `v` is among that kid's non-Off states, reset to `/Off`
when it is not but an `/AS` entry exists, untouched when there is no
`/AS` entry — and finally sets the group's `/V` to `v`. -/
theorem c3_radio_group_assignment (a : PAnnot) (kids : List PAnnot) (v : String)
    (hk : a.kids = some kids) (hap : ∀ k ∈ kids, (k.apN).isSome) :
    set_value_radiogroup a (.name v)
      = .ok ((a.setKids (some (kids.map (radio_kid_spec v)))).setV (some v))
    ∧ ∀ k, (v ∈ kid_non_off_states k → radio_kid_spec v k = k.setAS (some v))
        ∧ (v ∉ kid_non_off_states k → (k.asv).isSome →
            radio_kid_spec v k = k.setAS (some "/Off"))
        ∧ (v ∉ kid_non_off_states k → k.asv = none → radio_kid_spec v k = k) := by
  constructor
  · simp [set_value_radiogroup, coerce_radio_name, hk,
      radio_kids_update_ok v kids hap, Bind.bind, Except.bind, pure, Except.pure]
  · intro k
    refine ⟨fun h => by simp [radio_kid_spec, h],
      fun h hAS => by simp [radio_kid_spec, h, hAS],
      fun h hAS => by simp [radio_kid_spec, h, hAS]⟩

/-- A radio button with `/AS = /Off` and states `{Off, 1}`. -/
def kid1 : PAnnot :=
  .mk (some "/Widget") none none none (some "/Off") none (some ["/Off", "/1"]) none none

/-- A radio button currently selected (`/AS = /2`) with states
`{Off, 2}`. -/
def kid2 : PAnnot :=
  .mk (some "/Widget") none none none (some "/2") none (some ["/Off", "/2"]) none none

/-- A radio button with no `/AS` entry and states `{Off, 3}`. -/
def kid3 : PAnnot :=
  .mk (some "/Widget") none none none none none (some ["/Off", "/3"]) none none

/-- A three-button radio group. -/
def radioGroup : PAnnot :=
  .mk none (some "/Btn") (some "grp") none none (some 32768) none
    (some [kid1, kid2, kid3]) none

/-- C3, witness: assigning `/1` to the three-button group selects the
first kid, resets the previously selected second kid to `/Off`, and
leaves the selector-less third kid untouched. -/
theorem c3_witness :
    set_value_radiogroup radioGroup (.name "/1")
      = .ok ((radioGroup.setKids
          (some ([kid1, kid2, kid3].map (radio_kid_spec "/1")))).setV (some "/1"))
    ∧ [kid1, kid2, kid3].map (radio_kid_spec "/1")
      = [kid1.setAS (some "/1"), kid2.setAS (some "/Off"), kid3] :=
  ⟨(c3_radio_group_assignment radioGroup [kid1, kid2, kid3] "/1" rfl (by decide)).1, rfl⟩

/-! ### C2 -/

/-- A checkbox whose appearance dictionary declares two non-Off states. -/
def cbMulti : PAnnot :=
  .mk (some "/Widget") (some "/Btn") (some "cb") none none none
    (some ["/Off", "/A", "/B"]) none none

/-- C2, counterexample to the claim as stated: with two non-Off states
(`/A`, `/B`) the claim demands failure, but `set.pop()` simply picks one
of them and `True` succeeds, setting `/V` and `/AS` to the picked
state. -/
theorem c2_counterexample :
    set_value_checkbox cbMulti (.bool true)
      = .ok ((cbMulti.setV (some "/A")).setAS (some "/A"))
    ∧ ((pySet ["/Off", "/A", "/B"]).filter (fun k => k ≠ "/Off")).length = 2 := by
  refine ⟨rfl, by decide⟩

/-- C2, amended: the candidate states are the node's own `/N` keys minus
`"Off"`; a string/name value equal to one of the `/N` keys is used
directly for both `/V` and `/AS`; otherwise, with zero non-Off states
every assignment fails (`KeyError` from `set.pop()` — even `False`),
while with one or more the first (an arbitrary but deterministic choice)
is the on-state: `True` sets `/V` and `/AS` to it, `False`/`None` set
both to `"Off"`, any other value raises `ValueError`; the discovered
on-state is stable across `True`, `False`, `True`. -/
theorem c2_checkbox_behavior (a b : PAnnot) (keys keys0 : List String)
    (s onState : String) (rest : List String)
    (hap : a.apN = some keys) (hs : s ∈ pySet keys)
    (hfil : (pySet keys).filter (fun k => k ≠ "/Off") = onState :: rest)
    (hbp : b.apN = some keys0)
    (hb0 : (pySet keys0).filter (fun k => k ≠ "/Off") = []) :
    set_value_checkbox a (.str s) = .ok ((a.setV (some s)).setAS (some s))
    ∧ set_value_checkbox a (.bool true)
        = .ok ((a.setV (some onState)).setAS (some onState))
    ∧ set_value_checkbox a (.bool false)
        = .ok ((a.setV (some "/Off")).setAS (some "/Off"))
    ∧ set_value_checkbox a .pyNone = .ok ((a.setV (some "/Off")).setAS (some "/Off"))
    ∧ set_value_checkbox a .other = .error .valueError
    ∧ (do
        let a1 ← set_value_checkbox a (.bool true)
        let a2 ← set_value_checkbox a1 (.bool false)
        set_value_checkbox a2 (.bool true))
        = .ok ((((((a.setV (some onState)).setAS (some onState)).setV
            (some "/Off")).setAS (some "/Off")).setV (some onState)).setAS (some onState))
    ∧ set_value_checkbox b (.bool true) = .error .keyError
    ∧ set_value_checkbox b (.bool false) = .error .keyError := by
  have e1 : set_value_checkbox a (.bool true)
      = .ok ((a.setV (some onState)).setAS (some onState)) := by
    simp only [set_value_checkbox, hap, set_value_checkbox_rest, hfil]
  have hA1 : ((a.setV (some onState)).setAS (some onState)).apN = some keys := by
    rw [PAnnot.apN_setAS, PAnnot.apN_setV, hap]
  have e2 : set_value_checkbox ((a.setV (some onState)).setAS (some onState)) (.bool false)
      = .ok ((((a.setV (some onState)).setAS (some onState)).setV
          (some "/Off")).setAS (some "/Off")) := by
    simp only [set_value_checkbox, hA1, set_value_checkbox_rest, hfil]
  have hA2 : ((((a.setV (some onState)).setAS (some onState)).setV
      (some "/Off")).setAS (some "/Off")).apN = some keys := by
    rw [PAnnot.apN_setAS, PAnnot.apN_setV, hA1]
  have e3 : set_value_checkbox ((((a.setV (some onState)).setAS (some onState)).setV
      (some "/Off")).setAS (some "/Off")) (.bool true)
      = .ok ((((((a.setV (some onState)).setAS (some onState)).setV
          (some "/Off")).setAS (some "/Off")).setV (some onState)).setAS (some onState)) := by
    simp only [set_value_checkbox, hA2, set_value_checkbox_rest, hfil]
  refine ⟨?_, e1, ?_, ?_, ?_, ?_, ?_, ?_⟩
  · simp only [set_value_checkbox, hap]
    rw [if_pos hs]
  · simp only [set_value_checkbox, hap, set_value_checkbox_rest, hfil]
  · simp only [set_value_checkbox, hap, set_value_checkbox_rest, hfil]
  · simp only [set_value_checkbox, hap, set_value_checkbox_rest, hfil]
  · simp only [e1, e2, e3, Bind.bind, Except.bind]
  · simp only [set_value_checkbox, hbp, set_value_checkbox_rest, hb0]
  · simp only [set_value_checkbox, hbp, set_value_checkbox_rest, hb0]

/-- A checkbox with the single non-Off state `/Yes`. -/
def cbSingle : PAnnot :=
  .mk (some "/Widget") (some "/Btn") (some "cb2") none none none
    (some ["/Off", "/Yes"]) none none

/-- A malformed checkbox whose only appearance state is `/Off`. -/
def cbZero : PAnnot :=
  .mk (some "/Widget") (some "/Btn") (some "cb0") none none none
    (some ["/Off"]) none none

/-- C2, witness: the amended theorem applied to a `{Off, Yes}` checkbox
and a malformed `{Off}`-only checkbox. -/
theorem c2_witness :
    set_value_checkbox cbSingle (.str "/Yes")
      = .ok ((cbSingle.setV (some "/Yes")).setAS (some "/Yes"))
    ∧ set_value_checkbox cbSingle (.bool true)
        = .ok ((cbSingle.setV (some "/Yes")).setAS (some "/Yes"))
    ∧ set_value_checkbox cbSingle (.bool false)
        = .ok ((cbSingle.setV (some "/Off")).setAS (some "/Off"))
    ∧ set_value_checkbox cbSingle .pyNone
        = .ok ((cbSingle.setV (some "/Off")).setAS (some "/Off"))
    ∧ set_value_checkbox cbSingle .other = .error .valueError
    ∧ (do
        let a1 ← set_value_checkbox cbSingle (.bool true)
        let a2 ← set_value_checkbox a1 (.bool false)
        set_value_checkbox a2 (.bool true))
        = .ok ((((((cbSingle.setV (some "/Yes")).setAS (some "/Yes")).setV
            (some "/Off")).setAS (some "/Off")).setV (some "/Yes")).setAS (some "/Yes"))
    ∧ set_value_checkbox cbZero (.bool true) = .error .keyError
    ∧ set_value_checkbox cbZero (.bool false) = .error .keyError :=
  c2_checkbox_behavior cbSingle cbZero ["/Off", "/Yes"] ["/Off"] "/Yes" "/Yes" []
    rfl (by decide) (by decide) rfl (by decide)

end Pdform
